import Mathlib

/-
Verification of the tool-dispatch loop (`run_conversation`) of the S3
function-calling notebook. The notebook code is embedded shallowly:

* The OpenAI completion service, the JSON decoder (`json.loads`) and the
  registry of executable handlers (`available_functions`) are external
  collaborators; they are bundled in an `Env` record as explicit functions.
  Fallible Python calls (the HTTP client, `json.loads`, a handler) are
  modelled as `Except String` values; a dictionary lookup that can raise
  `KeyError` is modelled as `Option`.
* Side effects are made observable through an event trace: every
  completion-service call and every handler invocation appends an `Event`
  to the trace, in the order the Python code performs them. A call that
  raises still appends its event first (the request was issued).
* A Python exception propagating out of `run_conversation` is modelled as
  an `Except.error` result tagged with the operation that raised it,
  carrying the original error payload verbatim.
-/

namespace S3Chat

/-- Nested function payload of an OpenAI tool call:
`tool_calls[i].function` with fields `.name` and `.arguments`
(the arguments are a JSON-encoded string produced by the model). -/
structure ToolFunction where
  name : String
  arguments : String
deriving DecidableEq

/-- One entry of `response_message.tool_calls`: an invocation identifier
`.id` plus the `function` payload. -/
structure ToolCall where
  id : String
  function : ToolFunction
deriving DecidableEq

/-- The message object of a completion choice
(`response.choices[0].message`): optional text `content` and the list of
requested `tool_calls`. Python treats a `None` or empty `tool_calls` as
falsy; both are modelled by the empty list. -/
structure RespMessage where
  content : Option String
  tool_calls : List ToolCall
deriving DecidableEq

/-- One element of `response.choices`. -/
structure Choice where
  message : RespMessage
deriving DecidableEq

/-- A completion-service response: the list of choices. The notebook
always reads `choices[0]`. -/
structure Response where
  choices : List Choice
deriving DecidableEq

/-- One turn of the conversation list `messages` built by
`run_conversation`: the two initial dicts (system and user), the appended
assistant `response_message` object, and the appended tool-role dict with
`content` and `tool_call_id`. -/
inductive Msg where
  | system (content : String)
  | user (content : String)
  | assistant (message : RespMessage)
  | tool (content : String) (tool_call_id : String)
deriving DecidableEq

/-- Observable external actions of one `run_conversation` execution, in
order: a completion-service request (with its message list and the
optional tool list plus tool-choice policy), or the execution of a tool
handler with its decoded arguments. `Tools` is the type of the tool-spec
list (`functions` in the notebook); `Args` is the type of a decoded
argument mapping. -/
inductive Event (Tools Args : Type) where
  | completion (messages : List Msg) (tools : Option (Tools × String))
  | toolExec (name : String) (args : Args)

/-- Exceptions that can escape `run_conversation`, each tagged with the
Python operation that raised it and carrying the original payload:
a completion-service (HTTP client) exception, an `IndexError` on an empty
`choices` list, a `json.loads` failure on the model-supplied argument
string, a `KeyError` from the `available_functions` dictionary lookup, or
an exception raised by the tool handler itself. -/
inductive RunError where
  | svcErr (e : String)
  | choicesEmpty
  | jsonErr (arguments : String) (e : String)
  | unknownTool (name : String)
  | toolErr (e : String)
deriving DecidableEq

/-- External collaborators of the dispatch loop, fixed for a run:
`svc` is the completion service (`client.chat.completions.create`),
taking the message list and, optionally, the tool list with the
tool-choice policy string; `functions` is the notebook-level tool-spec
list; `json_loads` decodes a model-supplied argument string; and
`available_functions` is the name-to-handler registry dictionary, with a
missing key modelling `KeyError`. -/
structure Env (Tools Args : Type) where
  svc : List Msg → Option (Tools × String) → Except String Response
  functions : Tools
  json_loads : String → Except String Args
  available_functions : String → Option (Args → Except String String)

/-- Embedding of `chat_completion_request(messages, functions,
function_call)`: when a tool list is given it is forwarded to the service
together with the tool-choice policy, otherwise the request carries no
tools. (The `model_name` argument only selects the remote model and is
absorbed into `svc`.) -/
def chat_completion_request {Tools : Type}
    (svc : List Msg → Option (Tools × String) → Except String Response)
    (messages : List Msg) (functions : Option Tools) (function_call : String) :
    Except String Response :=
  match functions with
  | some fns => svc messages (some (fns, function_call))
  | none => svc messages none

/-- The f-string system message built by `run_conversation` from `topic`. -/
def system_message (topic : String) : String :=
  "Don\x27t make assumptions about what values to plug into functions. Ask for clarification if a user request is ambiguous. If the user ask question not related to " ++
    topic ++ " response your scope is " ++ topic ++ " only."

/-- The initial conversation built by `run_conversation`:
`[{'role': 'system', ...}, {'role': 'user', ...}]`. -/
def init_messages (user_input topic : String) : List Msg :=
  [Msg.system (system_message topic), Msg.user user_input]

/-- The conversation sent to the second completion call: the initial two
turns, then the appended assistant `response_message`, then the tool-role
turn carrying the serialized handler result and the first tool call id. -/
def followup_messages (user_input topic : String) (response_message : RespMessage)
    (function_response tool_call_id : String) : List Msg :=
  init_messages user_input topic ++
    [Msg.assistant response_message, Msg.tool function_response tool_call_id]

/-- Embedding of `run_conversation(user_input, topic, is_log)`.
It mirrors the notebook cell line by line: build the two initial turns;
call the completion service with the tool list and `'auto'` tool choice;
if `choices[0].message.tool_calls` is non-empty, decode
`tool_calls[0].function.arguments` with `json.loads`, look
`tool_calls[0].function.name` up in `available_functions`, call the
handler, append the assistant turn and the tool turn, call the service
again without tools and return `choices[0].message.content` of that
second response; otherwise return the first response text directly.
The `is_log` parameter only prints to the console and is dropped. The
second component of the result is the trace of external actions. -/
def run_conversation {Tools Args : Type} (env : Env Tools Args)
    (user_input topic : String) :
    Except RunError (Option String) × List (Event Tools Args) :=
  match chat_completion_request env.svc (init_messages user_input topic)
      (some env.functions) "auto" with
  | .error e =>
      (.error (.svcErr e),
       [.completion (init_messages user_input topic) (some (env.functions, "auto"))])
  | .ok response =>
  match response.choices with
  | [] =>
      (.error .choicesEmpty,
       [.completion (init_messages user_input topic) (some (env.functions, "auto"))])
  | choice0 :: _ =>
  match choice0.message.tool_calls with
  | [] =>
      (.ok choice0.message.content,
       [.completion (init_messages user_input topic) (some (env.functions, "auto"))])
  | tc :: _ =>
  match env.json_loads tc.function.arguments with
  | .error e =>
      (.error (.jsonErr tc.function.arguments e),
       [.completion (init_messages user_input topic) (some (env.functions, "auto"))])
  | .ok function_args =>
  match env.available_functions tc.function.name with
  | none =>
      (.error (.unknownTool tc.function.name),
       [.completion (init_messages user_input topic) (some (env.functions, "auto"))])
  | some handler =>
  match handler function_args with
  | .error e =>
      (.error (.toolErr e),
       [.completion (init_messages user_input topic) (some (env.functions, "auto")),
        .toolExec tc.function.name function_args])
  | .ok function_response =>
  match chat_completion_request env.svc
      (followup_messages user_input topic choice0.message function_response tc.id)
      none "auto" with
  | .error e =>
      (.error (.svcErr e),
       [.completion (init_messages user_input topic) (some (env.functions, "auto")),
        .toolExec tc.function.name function_args,
        .completion (followup_messages user_input topic choice0.message
          function_response tc.id) none])
  | .ok second_response =>
  match second_response.choices with
  | [] =>
      (.error .choicesEmpty,
       [.completion (init_messages user_input topic) (some (env.functions, "auto")),
        .toolExec tc.function.name function_args,
        .completion (followup_messages user_input topic choice0.message
          function_response tc.id) none])
  | c2 :: _ =>
      (.ok c2.message.content,
       [.completion (init_messages user_input topic) (some (env.functions, "auto")),
        .toolExec tc.function.name function_args,
        .completion (followup_messages user_input topic choice0.message
          function_response tc.id) none])

/-- Discriminator: is the event a completion-service call? -/
def Event.isCompletion {Tools Args : Type} : Event Tools Args → Bool
  | .completion _ _ => true
  | .toolExec _ _ => false

/-- Discriminator: is the event a tool-handler execution? -/
def Event.isToolExec {Tools Args : Type} : Event Tools Args → Bool
  | .completion _ _ => false
  | .toolExec _ _ => true

/-- Number of tool-handler executions recorded in a trace: this is the
number of times the external side effect of a handler occurs. -/
def toolExecCount {Tools Args : Type} (events : List (Event Tools Args)) : Nat :=
  events.countP Event.isToolExec

/-- Number of completion-service calls recorded in a trace. -/
def completionCount {Tools Args : Type} (events : List (Event Tools Args)) : Nat :=
  events.countP Event.isCompletion

/-- Two back-to-back executions of `run_conversation` on the same
environment and input: the combined trace of external actions. -/
def run_twice_trace {Tools Args : Type} (env : Env Tools Args)
    (user_input topic : String) : List (Event Tools Args) :=
  (run_conversation env user_input topic).snd ++
    (run_conversation env user_input topic).snd

/-- Helper: exact characterisation of a fully successful tool path —
first completion call returns a choice whose message carries at least one
tool call, the argument string decodes, the registry resolves the name,
the handler succeeds, and the second completion call returns a choice. -/
lemma run_tool_success_eq {Tools Args : Type} (env : Env Tools Args)
    (u topic : String) (resp : Response) (choice0 : Choice) (cs : List Choice)
    (tc : ToolCall) (ts : List ToolCall) (args : Args)
    (handler : Args → Except String String) (out : String)
    (resp2 : Response) (c2 : Choice) (cs2 : List Choice)
    (hsvc : env.svc (init_messages u topic) (some (env.functions, "auto")) = .ok resp)
    (hch : resp.choices = choice0 :: cs)
    (htc : choice0.message.tool_calls = tc :: ts)
    (hjson : env.json_loads tc.function.arguments = .ok args)
    (hlook : env.available_functions tc.function.name = some handler)
    (hrun : handler args = .ok out)
    (hsvc2 : env.svc (followup_messages u topic choice0.message out tc.id) none =
      .ok resp2)
    (hch2 : resp2.choices = c2 :: cs2) :
    run_conversation env u topic =
      (.ok c2.message.content,
       [.completion (init_messages u topic) (some (env.functions, "auto")),
        .toolExec tc.function.name args,
        .completion (followup_messages u topic choice0.message out tc.id) none]) := by
  unfold run_conversation chat_completion_request
  simp only [hsvc, hch, htc, hjson, hlook, hrun, hsvc2, hch2]

/-- Helper: every execution of the loop produces one of exactly three
trace shapes — a single completion call; a completion call followed by a
tool execution; or completion, tool execution, completion. -/
lemma run_trace_shape {Tools Args : Type} (env : Env Tools Args) (u topic : String) :
    (∃ m o, (run_conversation env u topic).snd = [.completion m o]) ∨
    (∃ m o n a, (run_conversation env u topic).snd =
      [.completion m o, .toolExec n a]) ∨
    (∃ m o n a m2 o2, (run_conversation env u topic).snd =
      [.completion m o, .toolExec n a, .completion m2 o2]) := by
  unfold run_conversation chat_completion_request
  repeat' split
  all_goals
    first
      | exact Or.inl ⟨_, _, rfl⟩
      | exact Or.inr (Or.inl ⟨_, _, _, _, rfl⟩)
      | exact Or.inr (Or.inr ⟨_, _, _, _, _, _, rfl⟩)

/-- C2: when the first response of the model carries no tool invocation,
`run_conversation` performs exactly one completion-service call and
returns the text content of that response verbatim. -/
theorem run_conversation_no_tool_single_call {Tools Args : Type}
    (env : Env Tools Args) (u topic : String)
    (resp : Response) (choice0 : Choice) (cs : List Choice)
    (hsvc : env.svc (init_messages u topic) (some (env.functions, "auto")) = .ok resp)
    (hch : resp.choices = choice0 :: cs)
    (htc : choice0.message.tool_calls = []) :
    run_conversation env u topic =
      (.ok choice0.message.content,
       [.completion (init_messages u topic) (some (env.functions, "auto"))]) := by
  unfold run_conversation chat_completion_request
  simp only [hsvc, hch, htc]

/-- C3: under every possible model behaviour, one execution of the loop
makes at least one and at most two completion-service calls, and executes
at most one tool handler. -/
theorem run_conversation_call_bounds {Tools Args : Type}
    (env : Env Tools Args) (u topic : String) :
    1 ≤ completionCount (run_conversation env u topic).snd ∧
    completionCount (run_conversation env u topic).snd ≤ 2 ∧
    toolExecCount (run_conversation env u topic).snd ≤ 1 := by
  rcases run_trace_shape env u topic with ⟨m, o, h⟩ | ⟨m, o, n, a, h⟩ |
      ⟨m, o, n, a, m2, o2, h⟩ <;>
    simp [completionCount, toolExecCount, h, List.countP_cons,
      Event.isCompletion, Event.isToolExec]

/-- C5: on the successful tool path, the second completion-service call
receives exactly the updated conversation — the two initial turns, the
assistant tool-selection turn, and the tool-role turn carrying the
serialized handler result under the invocation id — with no tool list
attached, and `run_conversation` returns the text content of that second
response. -/
theorem run_conversation_second_call_contents {Tools Args : Type}
    (env : Env Tools Args) (u topic : String)
    (resp : Response) (choice0 : Choice) (cs : List Choice)
    (tc : ToolCall) (ts : List ToolCall) (args : Args)
    (handler : Args → Except String String) (out : String)
    (resp2 : Response) (c2 : Choice) (cs2 : List Choice)
    (hsvc : env.svc (init_messages u topic) (some (env.functions, "auto")) = .ok resp)
    (hch : resp.choices = choice0 :: cs)
    (htc : choice0.message.tool_calls = tc :: ts)
    (hjson : env.json_loads tc.function.arguments = .ok args)
    (hlook : env.available_functions tc.function.name = some handler)
    (hrun : handler args = .ok out)
    (hsvc2 : env.svc (followup_messages u topic choice0.message out tc.id) none =
      .ok resp2)
    (hch2 : resp2.choices = c2 :: cs2) :
    run_conversation env u topic =
      (.ok c2.message.content,
       [.completion (init_messages u topic) (some (env.functions, "auto")),
        .toolExec tc.function.name args,
        .completion (followup_messages u topic choice0.message out tc.id) none]) :=
  run_tool_success_eq env u topic resp choice0 cs tc ts args handler out resp2 c2
    cs2 hsvc hch htc hjson hlook hrun hsvc2 hch2

/-- C9: when the first response carries more than one tool invocation,
only the first one is decoded and executed, only its id is recorded in
the tool-role turn, and the later invocations are silently ignored: the
run still succeeds and its trace mentions only the first invocation. -/
theorem run_conversation_multiple_tool_calls_first_only {Tools Args : Type}
    (env : Env Tools Args) (u topic : String)
    (resp : Response) (choice0 : Choice) (cs : List Choice)
    (tc tc2 : ToolCall) (ts : List ToolCall) (args : Args)
    (handler : Args → Except String String) (out : String)
    (resp2 : Response) (c2 : Choice) (cs2 : List Choice)
    (hsvc : env.svc (init_messages u topic) (some (env.functions, "auto")) = .ok resp)
    (hch : resp.choices = choice0 :: cs)
    (htc : choice0.message.tool_calls = tc :: tc2 :: ts)
    (hjson : env.json_loads tc.function.arguments = .ok args)
    (hlook : env.available_functions tc.function.name = some handler)
    (hrun : handler args = .ok out)
    (hsvc2 : env.svc (followup_messages u topic choice0.message out tc.id) none =
      .ok resp2)
    (hch2 : resp2.choices = c2 :: cs2) :
    run_conversation env u topic =
      (.ok c2.message.content,
       [.completion (init_messages u topic) (some (env.functions, "auto")),
        .toolExec tc.function.name args,
        .completion (followup_messages u topic choice0.message out tc.id) none]) :=
  run_tool_success_eq env u topic resp choice0 cs tc (tc2 :: ts) args handler out
    resp2 c2 cs2 hsvc hch htc hjson hlook hrun hsvc2 hch2

/-- C10: when the model-supplied argument string of the selected tool
invocation fails to decode as JSON, the loop raises the decoding error
before any handler runs: the result is the `json.loads` failure and the
trace contains no tool execution, so no external side effect occurred. -/
theorem run_conversation_bad_json_no_side_effect {Tools Args : Type}
    (env : Env Tools Args) (u topic : String)
    (resp : Response) (choice0 : Choice) (cs : List Choice)
    (tc : ToolCall) (ts : List ToolCall) (e : String)
    (hsvc : env.svc (init_messages u topic) (some (env.functions, "auto")) = .ok resp)
    (hch : resp.choices = choice0 :: cs)
    (htc : choice0.message.tool_calls = tc :: ts)
    (hjson : env.json_loads tc.function.arguments = .error e) :
    run_conversation env u topic =
      (.error (.jsonErr tc.function.arguments e),
       [.completion (init_messages u topic) (some (env.functions, "auto"))]) ∧
    toolExecCount (run_conversation env u topic).snd = 0 := by
  have heq : run_conversation env u topic =
      ((.error (.jsonErr tc.function.arguments e) :
          Except RunError (Option String)),
       [.completion (init_messages u topic) (some (env.functions, "auto"))]) := by
    unfold run_conversation chat_completion_request
    simp only [hsvc, hch, htc, hjson]
  refine ⟨heq, ?_⟩
  rw [heq]
  simp [toolExecCount, List.countP_cons, Event.isToolExec]

/-- C1: consider an invocation of the dispatch loop that completes
normally (no exception escapes) and whose first model response carries a
tool invocation. Then the run issued exactly two completion-service calls
and exactly one tool-handler call, in the order first completion, tool
handler, second completion. -/
theorem run_conversation_tool_invocation_two_calls {Tools Args : Type}
    (env : Env Tools Args) (u topic : String)
    (resp : Response) (choice0 : Choice) (cs : List Choice)
    (tc : ToolCall) (ts : List ToolCall)
    (hsvc : env.svc (init_messages u topic) (some (env.functions, "auto")) = .ok resp)
    (hch : resp.choices = choice0 :: cs)
    (htc : choice0.message.tool_calls = tc :: ts)
    (hok : (run_conversation env u topic).fst.isOk = true) :
    ∃ args m2,
      (run_conversation env u topic).snd =
        [.completion (init_messages u topic) (some (env.functions, "auto")),
         .toolExec tc.function.name args,
         .completion m2 none] := by
  rcases hjson : env.json_loads tc.function.arguments with e | args
  · exfalso
    unfold run_conversation chat_completion_request at hok
    simp [hsvc, hch, htc, hjson, Except.isOk, Except.toBool] at hok
  rcases hlook : env.available_functions tc.function.name with _ | handler
  · exfalso
    unfold run_conversation chat_completion_request at hok
    simp [hsvc, hch, htc, hjson, hlook, Except.isOk, Except.toBool] at hok
  rcases hrun : handler args with e | out
  · exfalso
    unfold run_conversation chat_completion_request at hok
    simp [hsvc, hch, htc, hjson, hlook, hrun, Except.isOk, Except.toBool] at hok
  rcases hsvc2 : env.svc (followup_messages u topic choice0.message out tc.id) none
      with e | resp2
  · exfalso
    unfold run_conversation chat_completion_request at hok
    simp [hsvc, hch, htc, hjson, hlook, hrun, hsvc2, Except.isOk, Except.toBool] at hok
  rcases hch2 : resp2.choices with _ | ⟨c2, cs2⟩
  · exfalso
    unfold run_conversation chat_completion_request at hok
    simp [hsvc, hch, htc, hjson, hlook, hrun, hsvc2, hch2, Except.isOk, Except.toBool] at hok
  refine ⟨args, followup_messages u topic choice0.message out tc.id, ?_⟩
  rw [run_tool_success_eq env u topic resp choice0 cs tc ts args handler out resp2
    c2 cs2 hsvc hch htc hjson hlook hrun hsvc2 hch2]

/-- C4: when the tool name selected by the model is absent from the
`available_functions` registry, the run fails with an error (either the
`KeyError` of the registry lookup or, if it fires first, the argument
decoding error) and the second completion-service call is never made: the
trace is the single first completion call, with no tool execution. -/
theorem run_conversation_unknown_tool_fails {Tools Args : Type}
    (env : Env Tools Args) (u topic : String)
    (resp : Response) (choice0 : Choice) (cs : List Choice)
    (tc : ToolCall) (ts : List ToolCall)
    (hsvc : env.svc (init_messages u topic) (some (env.functions, "auto")) = .ok resp)
    (hch : resp.choices = choice0 :: cs)
    (htc : choice0.message.tool_calls = tc :: ts)
    (hlook : env.available_functions tc.function.name = none) :
    ∃ err,
      run_conversation env u topic =
        (.error err,
         [.completion (init_messages u topic) (some (env.functions, "auto"))]) := by
  unfold run_conversation chat_completion_request
  simp only [hsvc, hch, htc]
  rcases hjson : env.json_loads tc.function.arguments with e | args
  · exact ⟨.jsonErr tc.function.arguments e, rfl⟩
  · simp only [hlook]
    exact ⟨.unknownTool tc.function.name, rfl⟩

/-- Boolean check that a completion event's conversation starts with a
given initial message list (tool executions pass vacuously). -/
def extends_conversation {Tools Args : Type} (init : List Msg) :
    Event Tools Args → Bool
  | .completion m _ => init.isPrefixOf m
  | .toolExec _ _ => true

/-- C7: every invocation of the loop builds its own conversation from
scratch: the very first external action is a completion call whose
message list is exactly the fresh two-turn list [system turn, user turn]
derived from this invocation's arguments, and every completion call of
the invocation uses a conversation extending those two fresh turns. In
this embedding `run_conversation` is a pure function of its arguments, so
no state carries over between invocations: this theorem pins down that
the conversation data itself is rebuilt from the arguments alone. -/
theorem run_conversation_fresh_conversation {Tools Args : Type}
    (env : Env Tools Args) (u topic : String) :
    (run_conversation env u topic).snd.head? =
      some (.completion [Msg.system (system_message topic), Msg.user u]
        (some (env.functions, "auto"))) ∧
    (run_conversation env u topic).snd.all
      (extends_conversation (init_messages u topic)) = true := by
  constructor
  · unfold run_conversation chat_completion_request
    repeat' split
    all_goals rfl
  · unfold run_conversation chat_completion_request
    repeat' split
    all_goals
      simp [extends_conversation, followup_messages, List.isPrefixOf_iff_prefix,
        List.prefix_append]

/-- C6: every exception raised by a collaborator propagates to the caller
of `run_conversation` unmodified — the result is an error carrying the
collaborator's payload verbatim, with no retry (the trace is cut at the
failing call) and no substituted default value. The three conjuncts cover
a failure of the first completion call, a failure of the tool handler,
and a failure of the second completion call. -/
theorem run_conversation_errors_propagate :
    (∀ (Tools Args : Type) (env : Env Tools Args) (u topic e : String),
      env.svc (init_messages u topic) (some (env.functions, "auto")) = .error e →
      run_conversation env u topic =
        (.error (.svcErr e),
         [.completion (init_messages u topic) (some (env.functions, "auto"))])) ∧
    (∀ (Tools Args : Type) (env : Env Tools Args) (u topic : String)
      (resp : Response) (choice0 : Choice) (cs : List Choice)
      (tc : ToolCall) (ts : List ToolCall) (args : Args)
      (handler : Args → Except String String) (e : String),
      env.svc (init_messages u topic) (some (env.functions, "auto")) = .ok resp →
      resp.choices = choice0 :: cs →
      choice0.message.tool_calls = tc :: ts →
      env.json_loads tc.function.arguments = .ok args →
      env.available_functions tc.function.name = some handler →
      handler args = .error e →
      run_conversation env u topic =
        (.error (.toolErr e),
         [.completion (init_messages u topic) (some (env.functions, "auto")),
          .toolExec tc.function.name args])) ∧
    (∀ (Tools Args : Type) (env : Env Tools Args) (u topic : String)
      (resp : Response) (choice0 : Choice) (cs : List Choice)
      (tc : ToolCall) (ts : List ToolCall) (args : Args)
      (handler : Args → Except String String) (out e : String),
      env.svc (init_messages u topic) (some (env.functions, "auto")) = .ok resp →
      resp.choices = choice0 :: cs →
      choice0.message.tool_calls = tc :: ts →
      env.json_loads tc.function.arguments = .ok args →
      env.available_functions tc.function.name = some handler →
      handler args = .ok out →
      env.svc (followup_messages u topic choice0.message out tc.id) none =
        .error e →
      run_conversation env u topic =
        (.error (.svcErr e),
         [.completion (init_messages u topic) (some (env.functions, "auto")),
          .toolExec tc.function.name args,
          .completion (followup_messages u topic choice0.message out tc.id)
            none])) := by
  refine ⟨?_, ?_, ?_⟩
  · intro Tools Args env u topic e hsvc
    unfold run_conversation chat_completion_request
    simp only [hsvc]
  · intro Tools Args env u topic resp choice0 cs tc ts args handler e hsvc hch htc
      hjson hlook hrun
    unfold run_conversation chat_completion_request
    simp only [hsvc, hch, htc, hjson, hlook, hrun]
  · intro Tools Args env u topic resp choice0 cs tc ts args handler out e hsvc hch
      htc hjson hlook hrun hsvc2
    unfold run_conversation chat_completion_request
    simp only [hsvc, hch, htc, hjson, hlook, hrun, hsvc2]

/-- Helper: once the first response selects a tool, the arguments decode
and the registry resolves the handler, the trace of the run records
exactly one tool-handler execution — whatever the handler and the second
completion call then do. -/
lemma run_toolExecCount_one {Tools Args : Type} (env : Env Tools Args)
    (u topic : String) (resp : Response) (choice0 : Choice) (cs : List Choice)
    (tc : ToolCall) (ts : List ToolCall) (args : Args)
    (handler : Args → Except String String)
    (hsvc : env.svc (init_messages u topic) (some (env.functions, "auto")) = .ok resp)
    (hch : resp.choices = choice0 :: cs)
    (htc : choice0.message.tool_calls = tc :: ts)
    (hjson : env.json_loads tc.function.arguments = .ok args)
    (hlook : env.available_functions tc.function.name = some handler) :
    toolExecCount (run_conversation env u topic).snd = 1 := by
  unfold run_conversation chat_completion_request
  simp only [hsvc, hch, htc, hjson, hlook]
  repeat' split
  all_goals simp [toolExecCount, List.countP_cons, Event.isToolExec, Event.isCompletion]

/-- C8: calling the loop twice on the identical input, in an environment
whose completion service selects a resolvable handler in both calls,
triggers the handler's external side effect exactly twice — there is no
deduplication, caching or idempotency check across invocations. -/
theorem run_conversation_no_dedup {Tools Args : Type} (env : Env Tools Args)
    (u topic : String) (resp : Response) (choice0 : Choice) (cs : List Choice)
    (tc : ToolCall) (ts : List ToolCall) (args : Args)
    (handler : Args → Except String String)
    (hsvc : env.svc (init_messages u topic) (some (env.functions, "auto")) = .ok resp)
    (hch : resp.choices = choice0 :: cs)
    (htc : choice0.message.tool_calls = tc :: ts)
    (hjson : env.json_loads tc.function.arguments = .ok args)
    (hlook : env.available_functions tc.function.name = some handler) :
    toolExecCount (run_twice_trace env u topic) = 2 := by
  have h1 := run_toolExecCount_one env u topic resp choice0 cs tc ts args handler
    hsvc hch htc hjson hlook
  unfold toolExecCount at h1
  unfold toolExecCount run_twice_trace
  rw [List.countP_append, h1]

/-- Concrete tool call used by the stubbed environments: the model picks
the tool named "echo" with an argument string, under invocation id
"call1". -/
def echoToolCall : ToolCall := ⟨"call1", ⟨"echo", "argstr"⟩⟩

/-- A second tool call, used to exercise a response carrying two
invocations at once. -/
def shoutToolCall : ToolCall := ⟨"call2", ⟨"shout", "argstr2"⟩⟩

/-- A first-response message selecting exactly one tool. -/
def toolSelectMessage : RespMessage := ⟨some "selecting a tool", [echoToolCall]⟩

/-- Response wrapping `toolSelectMessage` as the single choice. -/
def toolSelectResponse : Response := ⟨[⟨toolSelectMessage⟩]⟩

/-- A first-response message selecting two tools in one turn. -/
def twoToolMessage : RespMessage := ⟨none, [echoToolCall, shoutToolCall]⟩

/-- Response wrapping `twoToolMessage` as the single choice. -/
def twoToolResponse : Response := ⟨[⟨twoToolMessage⟩]⟩

/-- A plain-text response with no tool invocation. -/
def summaryMessage : RespMessage := ⟨some "all done", []⟩

/-- Response wrapping `summaryMessage` as the single choice. -/
def summaryResponse : Response := ⟨[⟨summaryMessage⟩]⟩

/-- Decoded argument mapping produced by the stub decoder. -/
def echoArgs : List (String × String) := [("text", "hi")]

/-- Stub environment for the successful tool path: the service selects
the "echo" tool on the first (tools-attached) call and summarizes on the
second, arguments decode, and the handler succeeds. -/
def echoEnv : Env String (List (String × String)) :=
  ⟨fun _ tools =>
      match tools with
      | some _ => .ok toolSelectResponse
      | none => .ok summaryResponse,
    "s3 tool specs",
    fun _ => .ok echoArgs,
    fun _ => some fun _ => .ok "echoed hi"⟩

/-- Stub environment whose model never requests a tool. -/
def noToolEnv : Env String (List (String × String)) :=
  ⟨fun _ _ => .ok summaryResponse,
    "s3 tool specs",
    fun _ => .ok echoArgs,
    fun _ => some fun _ => .ok "echoed hi"⟩

/-- Stub environment whose registry resolves no tool name at all. -/
def unknownEnv : Env String (List (String × String)) :=
  ⟨fun _ tools =>
      match tools with
      | some _ => .ok toolSelectResponse
      | none => .ok summaryResponse,
    "s3 tool specs",
    fun _ => .ok echoArgs,
    fun _ => none⟩

/-- Stub environment whose argument decoder always fails. -/
def badJsonEnv : Env String (List (String × String)) :=
  ⟨fun _ tools =>
      match tools with
      | some _ => .ok toolSelectResponse
      | none => .ok summaryResponse,
    "s3 tool specs",
    fun _ => .error "ValueError",
    fun _ => some fun _ => .ok "echoed hi"⟩

/-- Stub environment whose completion service always fails. -/
def svcFailEnv : Env String (List (String × String)) :=
  ⟨fun _ _ => .error "network down",
    "s3 tool specs",
    fun _ => .ok echoArgs,
    fun _ => some fun _ => .ok "echoed hi"⟩

/-- Stub environment whose tool handler raises. -/
def handlerFailEnv : Env String (List (String × String)) :=
  ⟨fun _ tools =>
      match tools with
      | some _ => .ok toolSelectResponse
      | none => .ok summaryResponse,
    "s3 tool specs",
    fun _ => .ok echoArgs,
    fun _ => some fun _ => .error "handler boom"⟩

/-- Stub environment whose completion service fails on the second
(no-tools) call only. -/
def secondFailEnv : Env String (List (String × String)) :=
  ⟨fun _ tools =>
      match tools with
      | some _ => .ok toolSelectResponse
      | none => .error "second down",
    "s3 tool specs",
    fun _ => .ok echoArgs,
    fun _ => some fun _ => .ok "echoed hi"⟩

/-- Stub environment whose model requests two tools in one turn. -/
def multiEnv : Env String (List (String × String)) :=
  ⟨fun _ tools =>
      match tools with
      | some _ => .ok twoToolResponse
      | none => .ok summaryResponse,
    "s3 tool specs",
    fun _ => .ok echoArgs,
    fun _ => some fun _ => .ok "echoed hi"⟩

/-- Witness for C1 at the stub environment `echoEnv`. -/
theorem run_conversation_tool_invocation_two_calls_witness :
    ∃ args m2,
      (run_conversation echoEnv "say hi" "S3 bucket functions.").snd =
        [.completion (init_messages "say hi" "S3 bucket functions.")
           (some (echoEnv.functions, "auto")),
         .toolExec echoToolCall.function.name args,
         .completion m2 none] :=
  run_conversation_tool_invocation_two_calls echoEnv "say hi"
    "S3 bucket functions." toolSelectResponse ⟨toolSelectMessage⟩ [] echoToolCall
    [] rfl rfl rfl rfl

/-- Witness for C2 at the stub environment `noToolEnv`. -/
theorem run_conversation_no_tool_single_call_witness :
    run_conversation noToolEnv "hello" "S3 bucket functions." =
      (.ok summaryMessage.content,
       [.completion (init_messages "hello" "S3 bucket functions.")
          (some (noToolEnv.functions, "auto"))]) :=
  run_conversation_no_tool_single_call noToolEnv "hello" "S3 bucket functions."
    summaryResponse ⟨summaryMessage⟩ [] rfl rfl rfl

/-- Witness for C4 at the stub environment `unknownEnv`. -/
theorem run_conversation_unknown_tool_fails_witness :
    ∃ err,
      run_conversation unknownEnv "say hi" "S3 bucket functions." =
        (.error err,
         [.completion (init_messages "say hi" "S3 bucket functions.")
            (some (unknownEnv.functions, "auto"))]) :=
  run_conversation_unknown_tool_fails unknownEnv "say hi" "S3 bucket functions."
    toolSelectResponse ⟨toolSelectMessage⟩ [] echoToolCall [] rfl rfl rfl rfl

/-- Witness for C5 at the stub environment `echoEnv`. -/
theorem run_conversation_second_call_contents_witness :
    run_conversation echoEnv "upload it" "S3 bucket functions." =
      (.ok summaryMessage.content,
       [.completion (init_messages "upload it" "S3 bucket functions.")
          (some (echoEnv.functions, "auto")),
        .toolExec echoToolCall.function.name echoArgs,
        .completion (followup_messages "upload it" "S3 bucket functions."
          toolSelectMessage "echoed hi" echoToolCall.id) none]) :=
  run_conversation_second_call_contents echoEnv "upload it"
    "S3 bucket functions." toolSelectResponse ⟨toolSelectMessage⟩ [] echoToolCall
    [] echoArgs (fun _ => .ok "echoed hi") "echoed hi" summaryResponse
    ⟨summaryMessage⟩ [] rfl rfl rfl rfl rfl rfl rfl rfl

/-- Witness for C6: three concrete stub environments in which the first
completion call, the tool handler, and the second completion call fail. -/
theorem run_conversation_errors_propagate_witness :
    run_conversation svcFailEnv "say hi" "S3 bucket functions." =
      (.error (.svcErr "network down"),
       [.completion (init_messages "say hi" "S3 bucket functions.")
          (some (svcFailEnv.functions, "auto"))]) ∧
    run_conversation handlerFailEnv "say hi" "S3 bucket functions." =
      (.error (.toolErr "handler boom"),
       [.completion (init_messages "say hi" "S3 bucket functions.")
          (some (handlerFailEnv.functions, "auto")),
        .toolExec echoToolCall.function.name echoArgs]) ∧
    run_conversation secondFailEnv "say hi" "S3 bucket functions." =
      (.error (.svcErr "second down"),
       [.completion (init_messages "say hi" "S3 bucket functions.")
          (some (secondFailEnv.functions, "auto")),
        .toolExec echoToolCall.function.name echoArgs,
        .completion (followup_messages "say hi" "S3 bucket functions."
          toolSelectMessage "echoed hi" echoToolCall.id) none]) :=
  ⟨run_conversation_errors_propagate.1 String (List (String × String)) svcFailEnv
     "say hi" "S3 bucket functions." "network down" rfl,
   run_conversation_errors_propagate.2.1 String (List (String × String))
     handlerFailEnv "say hi" "S3 bucket functions." toolSelectResponse
     ⟨toolSelectMessage⟩ [] echoToolCall [] echoArgs
     (fun _ => .error "handler boom") "handler boom" rfl rfl rfl rfl rfl rfl,
   run_conversation_errors_propagate.2.2 String (List (String × String))
     secondFailEnv "say hi" "S3 bucket functions." toolSelectResponse
     ⟨toolSelectMessage⟩ [] echoToolCall [] echoArgs (fun _ => .ok "echoed hi")
     "echoed hi" "second down" rfl rfl rfl rfl rfl rfl rfl⟩

/-- Witness for C8 at the stub environment `echoEnv`. -/
theorem run_conversation_no_dedup_witness :
    toolExecCount (run_twice_trace echoEnv "upload it" "S3 bucket functions.") = 2 :=
  run_conversation_no_dedup echoEnv "upload it" "S3 bucket functions."
    toolSelectResponse ⟨toolSelectMessage⟩ [] echoToolCall [] echoArgs
    (fun _ => .ok "echoed hi") rfl rfl rfl rfl rfl

/-- Witness for C9 at the stub environment `multiEnv`, whose model emits
two tool calls in a single turn. -/
theorem run_conversation_multiple_tool_calls_first_only_witness :
    run_conversation multiEnv "do two things" "S3 bucket functions." =
      (.ok summaryMessage.content,
       [.completion (init_messages "do two things" "S3 bucket functions.")
          (some (multiEnv.functions, "auto")),
        .toolExec echoToolCall.function.name echoArgs,
        .completion (followup_messages "do two things" "S3 bucket functions."
          twoToolMessage "echoed hi" echoToolCall.id) none]) :=
  run_conversation_multiple_tool_calls_first_only multiEnv "do two things"
    "S3 bucket functions." twoToolResponse ⟨twoToolMessage⟩ [] echoToolCall
    shoutToolCall [] echoArgs (fun _ => .ok "echoed hi") "echoed hi"
    summaryResponse ⟨summaryMessage⟩ [] rfl rfl rfl rfl rfl rfl rfl rfl

/-- Witness for C10 at the stub environment `badJsonEnv`. -/
theorem run_conversation_bad_json_no_side_effect_witness :
    run_conversation badJsonEnv "say hi" "S3 bucket functions." =
      (.error (.jsonErr echoToolCall.function.arguments "ValueError"),
       [.completion (init_messages "say hi" "S3 bucket functions.")
          (some (badJsonEnv.functions, "auto"))]) ∧
    toolExecCount
      (run_conversation badJsonEnv "say hi" "S3 bucket functions.").snd = 0 :=
  run_conversation_bad_json_no_side_effect badJsonEnv "say hi"
    "S3 bucket functions." toolSelectResponse ⟨toolSelectMessage⟩ [] echoToolCall
    [] "ValueError" rfl rfl rfl rfl

end S3Chat
